import Mathlib

/-!
Shallow embedding of the client-side reconciliation core of the
`gallardo-crowdfunding` repository: the support-message feed
(`src/components/react/SupportMessageSection/SupportMessageSection.tsx`),
its debounced event gate (`useNewMessageListener`), its bulk-load
reconciler (`loadInitialComments` together with `getSupportMessages`
from `src/lib/supabase.ts`), and the realtime insert handler of the
contributors list (`ContributorsList`).

Conventions of the embedding:
* ISO-8601 timestamp strings are consumed by the source exclusively
  through `new Date(s).getTime()` (millisecond arithmetic) or string
  interpolation; we embed each timestamp as its epoch-millisecond value
  (`Int`), and interpolate it with `toString` where the source
  interpolates the raw string.  A missing timestamp field is `none`.
* Loosely-typed JS objects become structures of `Option` fields.
* `Date.now()` / `new Date()` at a given step is passed in as a `now`
  parameter.
* JS `a || b` on strings treats both `undefined` and the empty string
  as falsy; `jsOrStr` reproduces this.  JS `a ?? b` is `Option.getD`.
* All definitions are total, so no embedded operation can throw; the
  `try`/`catch` wrappers that the source puts around the handlers are
  therefore represented by totality itself.
-/

/-- JS `a || b` where `a` is an optional string: `undefined` and `""`
are falsy. -/
def jsOrStr (a : Option String) (b : String) : String :=
  match a with
  | some s => if s = "" then b else s
  | none => b

/-- JS `a || b` where `a` is an optional number: `undefined` and `0`
are falsy. -/
def jsOrInt (a : Option Int) (b : Int) : Int :=
  match a with
  | some n => if n = 0 then b else n
  | none => b

/-- The `SupportMessage` row shape (`src/lib/supabase.ts`).
`created_at` / `updated_at` are epoch milliseconds (see module
conventions). -/
structure SupportMessage where
  id : String
  author_name : String
  author_emoji : String
  message : String
  is_from_contributor : Bool
  is_approved : Bool
  created_at : Int
  updated_at : Int
deriving Repr, DecidableEq

/-- The loosely-typed `event.detail.message` payload of a raw
`newSupportMessage` notification: every field may be absent. -/
structure RawMessage where
  id : Option String
  author_name : Option String
  message : Option String
  text : Option String
  author_emoji : Option String
  is_from_contributor : Option Bool
  is_approved : Option Bool
  updated_at : Option Int
deriving Repr, DecidableEq

/-- The raw notification `event.detail`: an `action` tag, a source
timestamp, and an optional entity payload — each possibly absent. -/
structure EventData where
  action : Option String
  timestamp : Option Int
  message : Option RawMessage
deriving Repr, DecidableEq

/-- Construction of `newComment` (SupportMessageSection.tsx lines
111, 118–130): field fallbacks across historical aliases, synthesized
`temp-<Date.now()>` id when the payload has no id, timestamps
defaulting to the source timestamp of the event and then to now. -/
def mkNewComment (now : Int) (timestamp : Option Int) (msg : RawMessage) : SupportMessage :=
  { id := jsOrStr msg.id ("temp-" ++ toString now)
    author_name := jsOrStr msg.author_name "Usuario"
    author_emoji := jsOrStr msg.author_emoji "👤"
    message := jsOrStr msg.message (jsOrStr msg.text "")
    is_from_contributor := msg.is_from_contributor.getD false
    is_approved := msg.is_approved.getD true
    created_at := timestamp.getD now
    updated_at := msg.updated_at.getD (timestamp.getD now) }

/-- The state cells of `SupportMessageSection` that the reconciliation
logic reads and writes: `comments` (the visible list), the
`processedMessageIds` ref (the admitted-id set of the deduplication
store), and the `hasLoadedInitial` / `isLoading` / `error` load
cells. -/
structure CompState where
  comments : List SupportMessage
  processedIds : Finset String
  hasLoadedInitial : Bool
  isLoading : Bool
  error : Option String
deriving DecidableEq

/-- Which branch of `handleNewMessage` fired; each branch is observable
in the source through its distinct `console.warn` / state effect. -/
inductive AddOutcome where
  /-- the candidate was prepended to the visible list -/
  | admitted (m : SupportMessage)
  /-- rejected at line 113: id already in `processedMessageIds` -/
  | duplicateId
  /-- rejected at line 133: an element of the visible list has the id -/
  | duplicateInList
  /-- rejected at line 141: same text, same author, timestamps within 10 s -/
  | duplicateContent
  /-- the `forceReload` branch ran -/
  | forceReload
  /-- neither branch matched (malformed / irrelevant notification) -/
  | ignored
deriving Repr, DecidableEq

/-- Result shape of `getSupportMessages` (`src/lib/supabase.ts`):
`{success, data?, error?}`. -/
inductive FetchResult where
  | ok (data : List SupportMessage)
  | err (msg : String)
deriving Repr, DecidableEq

/-- Registration of fetched ids (lines 91–96 and 190–194): clear is
modelled by the caller passing `∅`; each entity with a truthy
(non-empty) id is added. -/
def registerIds (data : List SupportMessage) (init : Finset String) : Finset String :=
  data.foldl (fun acc c => if c.id = "" then acc else insert c.id acc) init

/-- Resolution of the fetch inside `loadInitialComments` (lines 86–105):
on success install `response.data` wholesale (no client-side sort),
mark loaded, and re-register all ids from scratch; on failure record
the error.  `isLoading` ends false either way (the `finally`). -/
def loadResolve (fetch : FetchResult) (s : CompState) : CompState :=
  match fetch with
  | .ok data =>
      { comments := data
        processedIds := registerIds data ∅
        hasLoadedInitial := true
        isLoading := false
        error := s.error }
  | .err m =>
      { s with error := some m, isLoading := false }

/-- The synchronous entry of `loadInitialComments` (lines 80–84): the
only guard is `hasLoadedInitial`; when it is false the fetch is issued
(returned boolean) after setting `isLoading := true` and clearing the
error. -/
def loadStart (s : CompState) : CompState × Bool :=
  if s.hasLoadedInitial then (s, false)
  else ({ s with isLoading := true, error := none }, true)

/-- `loadInitialComments` with its fetch resolved synchronously: guard,
then fetch, then resolution.  The boolean reports whether a fetch was
issued. -/
def loadInitialComments (fetch : FetchResult) (s : CompState) : CompState × Bool :=
  match loadStart s with
  | (s1, false) => (s1, false)
  | (s1, true) => (loadResolve fetch s1, true)

/-- `handleNewMessage` of `SupportMessageSection` (lines 108–172).
The `forceReload` branch re-invokes `loadInitialComments()`; that
closure captured the pre-update `hasLoadedInitial` (a stale closure),
so when the view was already loaded the re-invocation returns without
fetching, and otherwise it starts and resolves a fetch. -/
def handleNewMessage (fetch : FetchResult) (now : Int) (d : EventData) (s : CompState) :
    CompState × AddOutcome :=
  match d.action, d.message with
  | some "add", some msg =>
      let messageId := jsOrStr msg.id ("temp-" ++ toString now)
      if messageId ∈ s.processedIds then (s, .duplicateId)
      else
        let newComment := mkNewComment now d.timestamp msg
        if s.comments.any (fun c => c.id = newComment.id) then (s, .duplicateInList)
        else if s.comments.any (fun c =>
            c.message = newComment.message ∧ c.author_name = newComment.author_name ∧
              (c.created_at - newComment.created_at).natAbs < 10000) then
          (s, .duplicateContent)
        else
          ({ s with comments := newComment :: s.comments,
                    processedIds := insert newComment.id s.processedIds },
           .admitted newComment)
  | a, _ =>
      if a = some "forceReload" then
        let staleLoaded := s.hasLoadedInitial
        let s1 : CompState := { s with hasLoadedInitial := false, processedIds := ∅ }
        if staleLoaded then (s1, .forceReload)
        else (loadResolve fetch { s1 with isLoading := true, error := none }, .forceReload)
      else (s, .ignored)

/-- State transition only (discarding the outcome tag). -/
def deliver (fetch : FetchResult) (now : Int) (d : EventData) (s : CompState) : CompState :=
  (handleNewMessage fetch now d s).1

/-- The prop-driven seed (lines 177–196, else branch): sort the given
messages by `created_at` descending (JS `sort((a,b) => tb - ta)`),
install them wholesale, mark loaded, and register every truthy id into
the existing store. -/
def seedFromProps (msgs : List SupportMessage) (s : CompState) : CompState :=
  let sortedMessages := msgs.mergeSort (fun a b => decide (b.created_at ≤ a.created_at))
  { s with comments := sortedMessages
           hasLoadedInitial := true
           processedIds := registerIds sortedMessages s.processedIds }

/-- The state of a freshly mounted `SupportMessageSection` with no
prop-supplied messages: empty list, empty store, not yet loaded
(`isLoading` initialised to true by `useState(true)`). -/
def freshComp : CompState :=
  { comments := []
    processedIds := ∅
    hasLoadedInitial := false
    isLoading := true
    error := none }

/-!
## Debounced event gate (`useNewMessageListener`, lines 17–64)

The hook keeps `lastEventRef` (the most recently forwarded composite
key) and `timeoutRef` (the single pending 50 ms debounce timer).  When
the debounce timer fires it forwards the payload and arms an untracked
2000 ms cooldown timer that clears `lastEventRef` if it still holds
this key.  We model virtual time explicitly: the gate state carries the
pending debounce timer (absolute due instant, key, payload) and the
outstanding cooldown timers; timers whose due instant has been reached
are executed in due order (ties: the earlier-armed cooldown first)
before the next arrival is processed.
-/

/-- The composite key (lines 23–25): `action`, `timestamp` and
`message?.id` joined by `-` separators — an absent action or timestamp
interpolates as `undefined`, and an absent payload or an absent or
empty id contributes `no-id`. -/
def eventKey (d : EventData) : String :=
  (d.action.getD "undefined") ++ "-" ++
    ((d.timestamp.map toString).getD "undefined") ++ "-" ++
    jsOrStr (d.message.bind RawMessage.id) "no-id"

/-- Gate state: `lastEventKey` is `lastEventRef.current` (initially
`""`), `pending` the single debounce timer tracked by `timeoutRef`
(due instant, key, payload), `clears` the armed cooldown timers (due
instant, key) in arming order. -/
structure GateState where
  lastEventKey : String
  pending : Option (Nat × String × EventData)
  clears : List (Nat × String)
deriving Repr, DecidableEq

def gateInit : GateState := { lastEventKey := "", pending := none, clears := [] }

/-- Extract the earliest-due cooldown timer (first-armed among ties)
and the remaining ones. -/
def pickMinClear : List (Nat × String) → Option ((Nat × String) × List (Nat × String))
  | [] => none
  | c :: cs =>
      match pickMinClear cs with
      | none => some (c, cs)
      | some (m, rest) =>
          if c.1 ≤ m.1 then some (c, cs) else some (m, c :: rest)

/-- One fuel-bounded pass executing every timer due at or before
instant `t`, in due order.  Executing the debounce timer sets
`lastEventKey`, emits the payload and arms the matching cooldown timer
(due 2000 ms later); executing a cooldown timer clears `lastEventKey`
if it still holds that key. -/
def runDueGo : Nat → Nat → GateState → GateState × List EventData
  | 0, _, s => (s, [])
  | fuel + 1, t, s =>
      match s.pending, pickMinClear s.clears with
      | some (pd, k, d), some ((cd, ck), rest) =>
          if cd ≤ t ∧ cd ≤ pd then
            runDueGo fuel t
              { lastEventKey := if s.lastEventKey = ck then "" else s.lastEventKey
                pending := s.pending
                clears := rest }
          else if pd ≤ t then
            let r := runDueGo fuel t
              { lastEventKey := k
                pending := none
                clears := s.clears ++ [(pd + 2000, k)] }
            (r.1, d :: r.2)
          else (s, [])
      | some (pd, k, d), none =>
          if pd ≤ t then
            let r := runDueGo fuel t
              { lastEventKey := k
                pending := none
                clears := [(pd + 2000, k)] }
            (r.1, d :: r.2)
          else (s, [])
      | none, some ((cd, ck), rest) =>
          if cd ≤ t then
            runDueGo fuel t
              { lastEventKey := if s.lastEventKey = ck then "" else s.lastEventKey
                pending := none
                clears := rest }
          else (s, [])
      | none, none => (s, [])

/-- Fuel sufficient to drain every timer of `s`: the debounce timer
needs two steps (its own and that of the cooldown it arms), each
cooldown timer one. -/
def gateMeasure (s : GateState) : Nat :=
  (if s.pending.isSome then 2 else 0) + s.clears.length

/-- Execute every timer due at or before instant `t`. -/
def runDue (t : Nat) (s : GateState) : GateState × List EventData :=
  runDueGo (gateMeasure s) t s

/-- Fuel-bounded pass executing every remaining timer regardless of
due instant (quiescence at the end of a run). -/
def flushGo : Nat → GateState → GateState × List EventData
  | 0, s => (s, [])
  | fuel + 1, s =>
      match s.pending, pickMinClear s.clears with
      | some (pd, k, d), some ((cd, ck), rest) =>
          if cd ≤ pd then
            flushGo fuel
              { lastEventKey := if s.lastEventKey = ck then "" else s.lastEventKey
                pending := s.pending
                clears := rest }
          else
            let r := flushGo fuel
              { lastEventKey := k
                pending := none
                clears := s.clears ++ [(pd + 2000, k)] }
            (r.1, d :: r.2)
      | some (pd, k, d), none =>
          let r := flushGo fuel
            { lastEventKey := k
              pending := none
              clears := [(pd + 2000, k)] }
          (r.1, d :: r.2)
      | none, some ((_, ck), rest) =>
          flushGo fuel
            { lastEventKey := if s.lastEventKey = ck then "" else s.lastEventKey
              pending := none
              clears := rest }
      | none, none => (s, [])

/-- Let every outstanding timer fire. -/
def gateFlush (s : GateState) : GateState × List EventData :=
  flushGo (gateMeasure s) s

/-- The `handleNewMessage` callback of the hook (lines 21–48) at
arrival instant `t`:
first any timers due by `t` fire; then the composite key is computed,
an exact match with `lastEventKey` drops the notification immediately,
and otherwise the pending debounce timer (if any) is cancelled
(`clearTimeout`) and a fresh one armed 50 ms out. -/
def gateArrive (t : Nat) (d : EventData) (s : GateState) : GateState × List EventData :=
  let r := runDue t s
  let key := eventKey d
  if r.1.lastEventKey = key then r
  else ({ r.1 with pending := some (t + 50, key, d) }, r.2)

/-- One arrival processed against an accumulated (state, forwarded)
pair. -/
def gateStep (acc : GateState × List EventData) (a : Nat × EventData) :
    GateState × List EventData :=
  let r := gateArrive a.1 a.2 acc.1
  (r.1, acc.2 ++ r.2)

/-- Run the gate from its initial state over time-stamped arrivals
(processed in list order), then let all remaining timers fire.
Returns the final state and the forwarded payloads in forwarding
order. -/
def gateRun (arrivals : List (Nat × EventData)) : GateState × List EventData :=
  let f := arrivals.foldl gateStep (gateInit, ([] : List EventData))
  let g := gateFlush f.1
  (g.1, f.2 ++ g.2)

/-- One forwarded payload consumed by the component handler, against an
accumulated (state, outcomes) pair. -/
def compStep (fetch : FetchResult) (now : Int) (acc : CompState × List AddOutcome)
    (d : EventData) : CompState × List AddOutcome :=
  let r := handleNewMessage fetch now d acc.1
  (r.1, acc.2 ++ [r.2])

/-- The full pipeline for the support-message view: the gate forwards
payloads, each forwarded payload is consumed by the component-level
`handleNewMessage`.  Returns the final component state and the
outcome of each forwarded payload. -/
def pipeline (fetch : FetchResult) (now : Int) (arrivals : List (Nat × EventData))
    (cs : CompState) : CompState × List AddOutcome :=
  (gateRun arrivals).2.foldl (compStep fetch now) (cs, ([] : List AddOutcome))

/-!
## Contributors list (`ContributorsList`, realtime insert handler)

The realtime subscription callback (ContributorsList lines 371–429)
normalizes the pushed record and prepends it to `items`
unconditionally — there is no id check on this path.  The content key
it records in `recentKeysRef` is only consulted by the local
`contributionCompleted` handler; its 5000 ms expiry timer is elided
here because no claim depends on expiry.
-/

/-- One rendered contribution (`PublicContribution`).  `amount` is
embedded as `Int` (claims use integral amounts). -/
structure PublicContribution where
  id : String
  contributor_name : String
  contributor_emoji : String
  amount : Int
  level_name : String
  message : String
  created_at : Int
  level_color : String
  level_emoji : String
deriving Repr, DecidableEq

/-- The loosely-typed realtime record with its historical field
aliases. -/
structure RtRecord where
  id : Option String
  contributor_name : Option String
  contributorName : Option String
  contributor_emoji : Option String
  contributorEmoji : Option String
  amount : Option Int
  value : Option Int
  level_name : Option String
  levelName : Option String
  message : Option String
  created_at : Option Int
  level_color : Option String
  level_emoji : Option String
deriving Repr, DecidableEq

/-- The record with every field absent (the `|| {}` fallback). -/
def emptyRtRecord : RtRecord :=
  ⟨none, none, none, none, none, none, none, none, none, none, none, none, none⟩

/-- The normalized realtime payload as delivered by
`subscribeToContributionsNormalized`: an event-type tag, the new
record, and the raw payload fallbacks (`p.raw?.record || p.raw`). -/
structure RtPayload where
  eventType : Option String
  newRecord : Option RtRecord
  rawRecord : Option RtRecord
  raw : Option RtRecord
deriving Repr, DecidableEq

/-- JS `String.prototype.toUpperCase` (charwise `Char.toUpper`),
defined on the character list so that it is kernel-computable. -/
def jsToUpper (s : String) : String := ⟨s.data.map Char.toUpper⟩

def listStarts : List Char → List Char → Bool
  | _, [] => true
  | [], _ :: _ => false
  | a :: as, b :: bs => a = b && listStarts as bs

def listHasSub (hay needle : List Char) : Bool :=
  match hay with
  | [] => needle.isEmpty
  | _ :: t => listStarts hay needle || listHasSub t needle

/-- JS `String.prototype.includes`. -/
def strIncludes (hay needle : String) : Bool :=
  listHasSub hay.toList needle.toList

/-- State of `ContributorsList`: the visible `items` plus the
`recentKeysRef` content-key set. -/
structure ContribState where
  items : List PublicContribution
  recentKeys : List String
deriving Repr, DecidableEq

/-- The realtime callback of `ContributorsList` (lines 372–429) on one
payload.  `rand` stands for the `String(Math.random())` fallback id and
`now` for `new Date()` at this step.  On an event type containing
`"INSERT"` the normalized item is prepended to `items` with no
duplicate check; its content key is recorded. -/
def contribRtInsert (rand : String) (now : Int) (p : RtPayload) (s : ContribState) :
    ContribState :=
  if strIncludes (jsToUpper (p.eventType.getD "")) "INSERT" then
    let rec0 := ((p.newRecord.orElse fun _ => p.rawRecord).orElse fun _ => p.raw).getD
      emptyRtRecord
    let newItem : PublicContribution :=
      { id := jsOrStr rec0.id rand
        contributor_name := jsOrStr rec0.contributor_name (jsOrStr rec0.contributorName "Anon")
        contributor_emoji := jsOrStr rec0.contributor_emoji (jsOrStr rec0.contributorEmoji "🎉")
        amount := jsOrInt rec0.amount (jsOrInt rec0.value 0)
        level_name := jsOrStr rec0.level_name (jsOrStr rec0.levelName "")
        message := jsOrStr rec0.message ""
        created_at := rec0.created_at.getD now
        level_color := jsOrStr rec0.level_color "#9e9e9e"
        level_emoji := jsOrStr rec0.level_emoji "⭐" }
    let key := newItem.contributor_name ++ "-" ++ toString newItem.amount ++ "-" ++
      toString newItem.created_at
    { items := newItem :: s.items
      recentKeys := s.recentKeys ++ [key] }
  else s

/-- An id is client-synthesized when it carries one of the synthetic
shapes used by the source: `temp-<millis>` (support messages) or
`local-<millis>-<suffix>` (local optimistic contributions). -/
def syntheticId (i : String) : Prop :=
  (∃ t : Int, i = "temp-" ++ toString t) ∨
    (∃ a b : String, i = "local-" ++ a ++ "-" ++ b)

/-- Id-uniqueness invariant claimed for a visible list. -/
abbrev uniqIds (l : List String) : Prop := l.Nodup

/-!
## Concrete sample data

Messages, events and payloads used to instantiate the theorems below.
The `msgT1`/`msgT2`/`msgT3` triple realises the timestamps
T-1 > T-2 > T-3 of the seed-ordering example.
-/

def msgT1 : SupportMessage := ⟨"id-t1", "Ana", "e", "x", false, true, 300, 300⟩

def msgT2 : SupportMessage := ⟨"id-t2", "Ben", "e", "y", false, true, 200, 200⟩

def msgT3 : SupportMessage := ⟨"id-t3", "Cal", "e", "z", false, true, 100, 100⟩

/-- A pushed contribution record with a server-assigned id. -/
def dupRecord : RtRecord :=
  ⟨some "abc", some "X", none, none, none, some 5, none, none, none, none,
    some 1000, none, none⟩

/-- A realtime INSERT notification carrying `dupRecord`. -/
def dupPayload : RtPayload := ⟨some "INSERT", some dupRecord, none, none⟩

/-- Two payloads with distinct server ids but identical author and
text. -/
def rawMsgA : RawMessage := ⟨some "m1", some "X", some "hola", none, none, none, none, none⟩

def rawMsgB : RawMessage := ⟨some "m2", some "X", some "hola", none, none, none, none, none⟩

def addEvtA : EventData := ⟨some "add", some 0, some rawMsgA⟩

def addEvtB : EventData := ⟨some "add", some 5000, some rawMsgB⟩

/-- An entity admitted to the visible list with a server id. -/
def listedMsg : SupportMessage := ⟨"srv-1", "X", "e", "hola", false, true, 0, 0⟩

/-- A loaded view whose list and store both hold `listedMsg`. -/
def loadedState : CompState :=
  { comments := [listedMsg]
    processedIds := {"srv-1"}
    hasLoadedInitial := true
    isLoading := false
    error := none }

def reloadEvt : EventData := ⟨some "forceReload", none, none⟩

/-- A re-delivery of `listedMsg` as an add notification. -/
def rawReadd : RawMessage := ⟨some "srv-1", some "X", some "hola", none, none, none, none, none⟩

def wMsg : RawMessage := ⟨some "w1", some "W", some "hey", none, none, none, none, none⟩

def wEvt1 : EventData := ⟨some "add", some 1, some wMsg⟩

def wEvt2 : EventData := ⟨some "add", some 2, some wMsg⟩

def wEvt3 : EventData := ⟨some "add", some 3, some wMsg⟩

/-!
## Helper lemmas
-/

theorem eventKey_ne_empty (d : EventData) : eventKey d ≠ "" := by
  intro h
  have hl := congrArg String.length h
  have hd : ("-" : String).length = 1 := rfl
  simp [eventKey, String.length_append, hd] at hl

theorem runDue_no_timers (t : Nat) (lk : String) :
    runDue t ⟨lk, none, []⟩ = (⟨lk, none, []⟩, []) := rfl

theorem runDue_pending_not_due {t pd : Nat} {lk k : String} {d : EventData}
    (h : t < pd) :
    runDue t ⟨lk, some (pd, k, d), []⟩ = (⟨lk, some (pd, k, d), []⟩, []) := by
  simp [runDue, gateMeasure, runDueGo, pickMinClear, Nat.not_le.mpr h]

theorem runDue_pending_due_cleared {t pd : Nat} {lk k : String} {d : EventData}
    (h1 : pd ≤ t) (h2 : pd + 2000 ≤ t) :
    runDue t ⟨lk, some (pd, k, d), []⟩ = (⟨"", none, []⟩, [d]) := by
  simp [runDue, gateMeasure, runDueGo, pickMinClear, h1, h2]

theorem gateFlush_pending {lk : String} {pd : Nat} {k : String} {d : EventData} :
    gateFlush ⟨lk, some (pd, k, d), []⟩ = (⟨"", none, []⟩, [d]) := by
  simp [gateFlush, gateMeasure, flushGo, pickMinClear]

theorem gateArrive_fresh_pending {t t2 : Nat} {k : String} {d d2 : EventData}
    (h : t2 < t + 50) (hk : eventKey d2 ≠ "") :
    gateArrive t2 d2 ⟨"", some (t + 50, k, d), []⟩ =
      (⟨"", some (t2 + 50, eventKey d2, d2), []⟩, []) := by
  simp [gateArrive, runDue_pending_not_due h, Ne.symm hk]

theorem gateArrive_init {t : Nat} {d : EventData} (hk : eventKey d ≠ "") :
    gateArrive t d gateInit = (⟨"", some (t + 50, eventKey d, d), []⟩, []) := by
  simp [gateArrive, gateInit, runDue_no_timers, Ne.symm hk]

theorem burst_fold (rest : List (Nat × EventData)) :
    ∀ (t : Nat) (d : EventData) (outs : List EventData),
    List.Chain' (fun x y : Nat × EventData => x.1 ≤ y.1 ∧ y.1 < x.1 + 50) ((t, d) :: rest) →
    List.foldl gateStep (⟨"", some (t + 50, eventKey d, d), []⟩, outs) rest =
      (⟨"", some ((rest.getLastD (t, d)).1 + 50, eventKey (rest.getLastD (t, d)).2,
        (rest.getLastD (t, d)).2), []⟩, outs) := by
  induction rest with
  | nil => intro t d outs _; rfl
  | cons a rest2 ih =>
      intro t d outs hchain
      have hlt : a.1 < t + 50 := (List.chain'_cons.mp hchain).1.2
      have hchain2 : List.Chain' (fun x y : Nat × EventData => x.1 ≤ y.1 ∧ y.1 < x.1 + 50)
          (a :: rest2) := (List.chain'_cons.mp hchain).2
      have hk2 := eventKey_ne_empty a.2
      simp only [List.foldl_cons, gateStep,
        gateArrive_fresh_pending hlt hk2, List.append_nil, List.getLastD_cons]
      have := ih a.1 a.2 outs
      rw [show ((a.1, a.2) : Nat × EventData) = a from rfl] at this
      exact this hchain2

theorem registerIds_cons (c : SupportMessage) (cs : List SupportMessage)
    (init : Finset String) :
    registerIds (c :: cs) init =
      registerIds cs (if c.id = "" then init else insert c.id init) := rfl

theorem registerIds_mem_init (data : List SupportMessage) (init : Finset String)
    (i : String) (h : i ∈ init) : i ∈ registerIds data init := by
  induction data generalizing init with
  | nil => exact h
  | cons c cs ih =>
      rw [registerIds_cons]
      by_cases hc : c.id = ""
      · rw [if_pos hc]; exact ih _ h
      · rw [if_neg hc]; exact ih _ (Finset.mem_insert_of_mem h)

theorem mem_registerIds (data : List SupportMessage) :
    ∀ (init : Finset String) (m : SupportMessage), m ∈ data → m.id ≠ "" →
      m.id ∈ registerIds data init := by
  induction data with
  | nil => intro init m hm _; cases hm
  | cons c cs ih =>
      intro init m hm hid
      rw [registerIds_cons]
      rcases List.mem_cons.mp hm with rfl | hm2
      · exact registerIds_mem_init _ _ _ (by simp [hid])
      · exact ih _ m hm2 hid

theorem syntheticId_min_length (i : String) (h : syntheticId i) : 5 ≤ i.length := by
  rcases h with ⟨t, rfl⟩ | ⟨a, b, rfl⟩
  · have h5 : ("temp-" : String).length = 5 := rfl
    rw [String.length_append, h5]
    omega
  · have h6 : ("local-" : String).length = 6 := rfl
    have h1 : ("-" : String).length = 1 := rfl
    rw [String.length_append, String.length_append, String.length_append, h6, h1]
    omega

/-!
## Claims
-/

/-- Claim C1 (confirmed): for an entity with a stable (payload-supplied,
non-empty, hence non-synthesized) id, delivering the same add event
N > 1 times to a view that starts with a fresh (empty) deduplication
store admits the entity exactly once: the first delivery is admitted,
the visible list holds exactly that entity after any number of
replays, and every subsequent delivery is rejected by the identity
check (`duplicateId`). -/
theorem idempotent_admission (fetch : FetchResult) (now : Int) (ts : Option Int)
    (msg : RawMessage) (i : String) (hid : msg.id = some i) (hne : i ≠ "") (n : Nat) :
    (handleNewMessage fetch now ⟨some "add", ts, some msg⟩ freshComp).2 =
      .admitted (mkNewComment now ts msg) ∧
    ((deliver fetch now ⟨some "add", ts, some msg⟩)^[n + 1] freshComp).comments =
      [mkNewComment now ts msg] ∧
    (handleNewMessage fetch now ⟨some "add", ts, some msg⟩
      ((deliver fetch now ⟨some "add", ts, some msg⟩)^[n + 1] freshComp)).2 =
      .duplicateId := by
  have hmid : jsOrStr msg.id ("temp-" ++ toString now) = i := by
    simp [jsOrStr, hid, hne]
  have hcid : (mkNewComment now ts msg).id = i := by
    simp [mkNewComment, hmid]
  have hfirst : handleNewMessage fetch now ⟨some "add", ts, some msg⟩ freshComp =
      ({ comments := [mkNewComment now ts msg]
         processedIds := insert i ∅
         hasLoadedInitial := false
         isLoading := true
         error := none }, .admitted (mkNewComment now ts msg)) := by
    simp [handleNewMessage, freshComp, hmid, hcid]
  have hfix : deliver fetch now ⟨some "add", ts, some msg⟩
      { comments := [mkNewComment now ts msg]
        processedIds := insert i ∅
        hasLoadedInitial := false
        isLoading := true
        error := none } =
      { comments := [mkNewComment now ts msg]
        processedIds := insert i ∅
        hasLoadedInitial := false
        isLoading := true
        error := none } := by
    simp [deliver, handleNewMessage, hmid]
  have hiter : (deliver fetch now ⟨some "add", ts, some msg⟩)^[n + 1] freshComp =
      { comments := [mkNewComment now ts msg]
        processedIds := insert i ∅
        hasLoadedInitial := false
        isLoading := true
        error := none } := by
    rw [Function.iterate_succ_apply]
    have hd1 : deliver fetch now ⟨some "add", ts, some msg⟩ freshComp =
        { comments := [mkNewComment now ts msg]
          processedIds := insert i ∅
          hasLoadedInitial := false
          isLoading := true
          error := none } := by
      simp [deliver, hfirst]
    rw [hd1, Function.iterate_fixed hfix]
  refine ⟨by simp [hfirst], by rw [hiter], ?_⟩
  rw [hiter]
  simp [handleNewMessage, hmid]

/-- Witness for C1: three replays of a concrete add event admit once
and then hit the identity check. -/
theorem idempotent_admission_check :
    (handleNewMessage (.err "net") 0 ⟨some "add", some 0, some wMsg⟩ freshComp).2 =
      .admitted (mkNewComment 0 (some 0) wMsg) ∧
    ((deliver (.err "net") 0 ⟨some "add", some 0, some wMsg⟩)^[3] freshComp).comments =
      [mkNewComment 0 (some 0) wMsg] ∧
    (handleNewMessage (.err "net") 0 ⟨some "add", some 0, some wMsg⟩
        ((deliver (.err "net") 0 ⟨some "add", some 0, some wMsg⟩)^[3] freshComp)).2 =
      .duplicateId :=
  idempotent_admission (.err "net") 0 (some 0) wMsg "w1" rfl (by decide) 2

/-- Claim C2 counterexample: the claim asserts the id-uniqueness
invariant for every list view and every admitting operation including
the push channel; but the realtime INSERT handler of the contributors
list prepends with no id check, so delivering the same INSERT payload
(server id `abc`, non-synthetic) twice yields a visible list whose ids
are `[abc, abc]` — the invariant fails. -/
theorem contributors_push_channel_duplicates :
    ((contribRtInsert "0.5" 0 dupPayload
        (contribRtInsert "0.5" 0 dupPayload ⟨[], []⟩)).items.map
      PublicContribution.id) = ["abc", "abc"] ∧
    ¬ uniqIds ((contribRtInsert "0.5" 0 dupPayload
        (contribRtInsert "0.5" 0 dupPayload ⟨[], []⟩)).items.map
      PublicContribution.id) ∧
    ¬ syntheticId "abc" := by
  refine ⟨by decide, by decide, fun h => ?_⟩
  have h5 := syntheticId_min_length _ h
  have h3 : ("abc" : String).length = 3 := rfl
  omega

/-- Claim C2 (corrected): the id-uniqueness invariant holds for the
support-message list view — every admitting operation of that view
(`handleNewMessage` on either channel, the fetch-driven seed given a
duplicate-free bulk-load result, and the prop-driven seed given
duplicate-free props) preserves it — but not for the contributors
list, whose push-channel insert handler performs no id check (see the
counterexample). -/
theorem support_ids_unique_amended :
    (∀ (fetch : FetchResult) (now : Int) (d : EventData) (s : CompState),
      uniqIds (s.comments.map SupportMessage.id) →
      (∀ data, fetch = .ok data → uniqIds (data.map SupportMessage.id)) →
      uniqIds ((handleNewMessage fetch now d s).1.comments.map SupportMessage.id)) ∧
    (∀ (fetch : FetchResult) (s : CompState),
      uniqIds (s.comments.map SupportMessage.id) →
      (∀ data, fetch = .ok data → uniqIds (data.map SupportMessage.id)) →
      uniqIds ((loadInitialComments fetch s).1.comments.map SupportMessage.id)) ∧
    (∀ (msgs : List SupportMessage) (s : CompState),
      uniqIds (msgs.map SupportMessage.id) →
      uniqIds ((seedFromProps msgs s).comments.map SupportMessage.id)) := by
  have hresolve : ∀ (fetch : FetchResult) (s : CompState),
      uniqIds (s.comments.map SupportMessage.id) →
      (∀ data, fetch = .ok data → uniqIds (data.map SupportMessage.id)) →
      uniqIds ((loadResolve fetch s).comments.map SupportMessage.id) := by
    intro fetch s hu hf
    cases fetch with
    | ok data => exact hf data rfl
    | err m => exact hu
  refine ⟨?_, ?_, ?_⟩
  · intro fetch now d s hu hf
    unfold handleNewMessage
    split
    · next msg =>
        dsimp only
        split
        · exact hu
        · split
          · exact hu
          · split
            · exact hu
            · next hnotin _ =>
                simp only [List.map_cons, uniqIds, List.nodup_cons]
                refine ⟨?_, hu⟩
                intro hmem
                obtain ⟨c, hc, hcid⟩ := List.mem_map.mp hmem
                rw [Bool.not_eq_true, List.any_eq_false] at hnotin
                exact absurd (by simpa using hcid) (by simpa using hnotin c hc)
    · next a m _ =>
        split
        · dsimp only
          split
          · exact hu
          · exact hresolve fetch _ hu hf
        · exact hu
  · intro fetch s hu hf
    unfold loadInitialComments
    rcases hs : loadStart s with ⟨s1, issued⟩
    cases issued with
    | false =>
        simp only []
        have : s1.comments = s.comments := by
          unfold loadStart at hs
          split at hs
          · cases hs; rfl
          · cases hs
        rw [this]; exact hu
    | true =>
        simp only []
        have : s1.comments = s.comments := by
          unfold loadStart at hs
          split at hs
          · cases hs
          · cases hs; rfl
        exact hresolve fetch s1 (by rw [this]; exact hu) hf
  · intro msgs s hu
    have hperm : ((seedFromProps msgs s).comments.map SupportMessage.id).Perm
        (msgs.map SupportMessage.id) :=
      ((msgs.mergeSort_perm _).map SupportMessage.id)
    exact hperm.nodup_iff.mpr hu

/-- Witness for C2 (amended): admitting a concrete add event into the
fresh support-message view keeps the visible ids duplicate-free. -/
theorem support_ids_unique_check :
    uniqIds ((handleNewMessage (.err "net") 0 addEvtA freshComp).1.comments.map
      SupportMessage.id) :=
  support_ids_unique_amended.1 (.err "net") 0 addEvtA freshComp (by decide)
    (fun _ h => by cases h)

/-- Claim C3 (confirmed): two raw notifications with the identical
composite key arriving within 50 ms produce exactly one forwarded
event, and the same key arriving again more than 2000 ms after the
forward (the cooldown having cleared `lastEventKey`) is forwarded
again rather than dropped. -/
theorem debounce_collapse (d : EventData) (t1 t2 t3 : Nat)
    (h12 : t1 ≤ t2) (h2 : t2 < t1 + 50) (h3 : t2 + 2050 < t3) :
    (gateRun [(t1, d), (t2, d)]).2 = [d] ∧
    (gateRun [(t1, d), (t2, d), (t3, d)]).2 = [d, d] := by
  have hk := eventKey_ne_empty d
  constructor
  · simp [gateRun, gateStep, List.foldl, gateArrive_init hk,
      gateArrive_fresh_pending h2 hk, gateFlush_pending]
  · have ha3 : gateArrive t3 d ⟨"", some (t2 + 50, eventKey d, d), []⟩ =
        (⟨"", some (t3 + 50, eventKey d, d), []⟩, [d]) := by
      have hd1 : t2 + 50 ≤ t3 := by omega
      have hd2 : t2 + 50 + 2000 ≤ t3 := by omega
      simp [gateArrive, runDue_pending_due_cleared hd1 hd2, Ne.symm hk]
    simp [gateRun, gateStep, List.foldl, gateArrive_init hk,
      gateArrive_fresh_pending h2 hk, ha3, gateFlush_pending]

/-- Witness for C3: a concrete key delivered at 0 ms and 20 ms forwards
once; delivered again at 3000 ms it forwards a second time. -/
theorem debounce_collapse_check :
    (gateRun [(0, wEvt1), (20, wEvt1)]).2 = [wEvt1] ∧
    (gateRun [(0, wEvt1), (20, wEvt1), (3000, wEvt1)]).2 = [wEvt1, wEvt1] :=
  debounce_collapse wEvt1 0 20 3000 (by decide) (by decide) (by decide)

/-- Claim C4 (confirmed): two add events with distinct non-empty ids
but identical author name and message text, delivered in sequence to a
fresh view, admit exactly one entity when their business timestamps
differ by less than 10 seconds (the second is rejected as
`duplicateContent`), and both when they differ by 10 seconds or
more. -/
theorem content_dedup_window (fetch : FetchResult) (now1 now2 t1 t2 : Int)
    (m1 m2 : RawMessage) (i1 i2 : String)
    (h1 : m1.id = some i1) (h2 : m2.id = some i2) (hne1 : i1 ≠ "") (hne2 : i2 ≠ "")
    (hid : i1 ≠ i2)
    (hauthor : (mkNewComment now2 (some t2) m2).author_name =
      (mkNewComment now1 (some t1) m1).author_name)
    (htext : (mkNewComment now2 (some t2) m2).message =
      (mkNewComment now1 (some t1) m1).message) :
    ((t1 - t2).natAbs < 10000 →
      handleNewMessage fetch now2 ⟨some "add", some t2, some m2⟩
          (deliver fetch now1 ⟨some "add", some t1, some m1⟩ freshComp) =
        (deliver fetch now1 ⟨some "add", some t1, some m1⟩ freshComp,
          .duplicateContent)) ∧
    (10000 ≤ (t1 - t2).natAbs →
      (handleNewMessage fetch now2 ⟨some "add", some t2, some m2⟩
          (deliver fetch now1 ⟨some "add", some t1, some m1⟩ freshComp)).2 =
        .admitted (mkNewComment now2 (some t2) m2) ∧
      (handleNewMessage fetch now2 ⟨some "add", some t2, some m2⟩
          (deliver fetch now1 ⟨some "add", some t1, some m1⟩ freshComp)).1.comments =
        [mkNewComment now2 (some t2) m2, mkNewComment now1 (some t1) m1]) := by
  have hmid1 : jsOrStr m1.id ("temp-" ++ toString now1) = i1 := by simp [jsOrStr, h1, hne1]
  have hmid2 : jsOrStr m2.id ("temp-" ++ toString now2) = i2 := by simp [jsOrStr, h2, hne2]
  have hcid1 : (mkNewComment now1 (some t1) m1).id = i1 := by simp [mkNewComment, hmid1]
  have hcid2 : (mkNewComment now2 (some t2) m2).id = i2 := by simp [mkNewComment, hmid2]
  have hca1 : (mkNewComment now1 (some t1) m1).created_at = t1 := by simp [mkNewComment]
  have hca2 : (mkNewComment now2 (some t2) m2).created_at = t2 := by simp [mkNewComment]
  have hs1 : deliver fetch now1 ⟨some "add", some t1, some m1⟩ freshComp =
      { comments := [mkNewComment now1 (some t1) m1]
        processedIds := insert i1 ∅
        hasLoadedInitial := false
        isLoading := true
        error := none } := by
    simp [deliver, handleNewMessage, freshComp, hmid1, hcid1]
  rw [hs1]
  constructor
  · intro hlt
    simp [handleNewMessage, hmid2, hcid1, hcid2, hid, Ne.symm hid, htext.symm,
      hauthor.symm, hca1, hca2, hlt]
  · intro hge
    have hnlt : ¬ (t1 - t2).natAbs < 10000 := by omega
    simp [handleNewMessage, hmid2, hcid1, hcid2, hid, Ne.symm hid, htext.symm,
      hauthor.symm, hca1, hca2, hnlt]

/-- Witness for C4: two concrete same-content events 5 seconds apart —
the second is rejected on content. -/
theorem content_dedup_window_check :
    handleNewMessage (.err "net") 0 ⟨some "add", some 5000, some rawMsgB⟩
        (deliver (.err "net") 0 ⟨some "add", some 0, some rawMsgA⟩ freshComp) =
      (deliver (.err "net") 0 ⟨some "add", some 0, some rawMsgA⟩ freshComp,
        .duplicateContent) :=
  (content_dedup_window (.err "net") 0 0 0 5000 rawMsgA rawMsgB "m1" "m2" rfl rfl
    (by decide) (by decide) (by decide) (by decide) (by decide)).1 (by decide)

/-- Claim C5 counterexample: the fetch-driven seed does not sort — the
bulk-load result with timestamps [T-3, T-1, T-2] is installed exactly
in that order, not as the claimed descending [T-1, T-2, T-3]. -/
theorem seed_fetch_does_not_sort :
    (loadInitialComments (.ok [msgT3, msgT1, msgT2]) freshComp).1.comments =
      [msgT3, msgT1, msgT2] ∧
    ([msgT3, msgT1, msgT2] : List SupportMessage) ≠ [msgT1, msgT2, msgT3] := by decide

/-- Claim C5 (corrected): the prop-driven seed sorts by business
timestamp descending ([T-3, T-1, T-2] becomes [T-1, T-2, T-3]),
replaces the visible list wholesale and registers every non-empty id;
the fetch-driven seed also replaces wholesale and registers every
non-empty id, but installs the response in the order the fetch
returned it, with no client-side sort (the fetch itself requests
descending order server-side). -/
theorem seed_ordering_amended :
    (∀ (msgs : List SupportMessage) (s : CompState),
      List.Sorted (fun a b : SupportMessage => b.created_at ≤ a.created_at)
        (seedFromProps msgs s).comments ∧
      (seedFromProps msgs s).comments.Perm msgs ∧
      (seedFromProps msgs s).hasLoadedInitial = true ∧
      ∀ m ∈ msgs, m.id ≠ "" → m.id ∈ (seedFromProps msgs s).processedIds) ∧
    (∀ (data : List SupportMessage) (s : CompState), s.hasLoadedInitial = false →
      (loadInitialComments (.ok data) s).1.comments = data ∧
      (loadInitialComments (.ok data) s).1.hasLoadedInitial = true ∧
      ∀ m ∈ data, m.id ≠ "" →
        m.id ∈ (loadInitialComments (.ok data) s).1.processedIds) ∧
    (seedFromProps [msgT3, msgT1, msgT2] freshComp).comments = [msgT1, msgT2, msgT3] := by
  refine ⟨?_, ?_, by simp [seedFromProps, List.mergeSort, msgT1, msgT2, msgT3]⟩
  · intro msgs s
    have hsorted : List.Sorted (fun a b : SupportMessage => b.created_at ≤ a.created_at)
        (msgs.mergeSort (fun a b => decide (b.created_at ≤ a.created_at))) := by
      have hp := @List.sorted_mergeSort SupportMessage
        (fun a b : SupportMessage => decide (b.created_at ≤ a.created_at))
        (fun a b c hab hbc => by
          simp only [decide_eq_true_eq] at *
          omega)
        (fun a b => by
          simp only [Bool.or_eq_true, decide_eq_true_eq]
          exact Int.le_total b.created_at a.created_at)
        msgs
      exact List.Pairwise.imp (fun h => by simpa using h) hp
    refine ⟨hsorted, msgs.mergeSort_perm _, rfl, ?_⟩
    intro m hm hid
    have hm2 : m ∈ msgs.mergeSort (fun a b => decide (b.created_at ≤ a.created_at)) :=
      ((msgs.mergeSort_perm _).mem_iff).mpr hm
    exact mem_registerIds _ _ m hm2 hid
  · intro data s hload
    have hstep : loadInitialComments (.ok data) s =
        (loadResolve (.ok data) { s with isLoading := true, error := none }, true) := by
      simp [loadInitialComments, loadStart, hload]
    rw [hstep]
    exact ⟨rfl, rfl, fun m hm hid => mem_registerIds _ _ m hm hid⟩

/-- Witness for C5 (amended): a concrete fetch-driven seed installs the
single-element response and registers its id. -/
theorem seed_ordering_check :
    (loadInitialComments (.ok [msgT1]) freshComp).1.comments = [msgT1] ∧
    msgT1.id ∈ (loadInitialComments (.ok [msgT1]) freshComp).1.processedIds :=
  ⟨(seed_ordering_amended.2.1 [msgT1] freshComp (by decide)).1,
   (seed_ordering_amended.2.1 [msgT1] freshComp (by decide)).2.2 msgT1 (by decide)
     (by decide)⟩

/-- Claim C6 counterexample: a candidate with a genuine server-assigned
id (`m2`, not synthetic, not in the admitted-id store) whose author,
text and business timestamp match an admitted entity within 10 seconds
IS rejected on content similarity alone — contradicting the claim that
such candidates are never rejected by the content check. -/
theorem server_id_content_rejection_cex :
    (handleNewMessage (.err "net") 0 addEvtB
        (deliver (.err "net") 0 addEvtA freshComp)).2 = .duplicateContent ∧
    ((handleNewMessage (.err "net") 0 addEvtB
        (deliver (.err "net") 0 addEvtA freshComp)).1.comments.map SupportMessage.id) =
      ["m1"] ∧
    "m2" ∉ (deliver (.err "net") 0 addEvtA freshComp).processedIds ∧
    ¬ syntheticId "m2" := by
  refine ⟨by decide, by decide, by decide, fun h => ?_⟩
  have h5 := syntheticId_min_length _ h
  have h2 : ("m2" : String).length = 2 := rfl
  omega

/-- Claim C6 (corrected): the content-similarity rejection is applied
to every add candidate that passes the two identity checks, regardless
of id provenance — any candidate (server-assigned id included) whose
author, text and business timestamp match some listed entity within
10 seconds is rejected as `duplicateContent` with the state
unchanged. -/
theorem content_check_hits_server_ids (fetch : FetchResult) (now : Int) (ts : Option Int)
    (msg : RawMessage) (i : String) (s : CompState)
    (hid : msg.id = some i) (hne : i ≠ "")
    (hnotproc : i ∉ s.processedIds)
    (hnotin : ∀ c ∈ s.comments, c.id ≠ i)
    (hmatch : ∃ c ∈ s.comments, c.message = (mkNewComment now ts msg).message ∧
      c.author_name = (mkNewComment now ts msg).author_name ∧
      (c.created_at - (mkNewComment now ts msg).created_at).natAbs < 10000) :
    handleNewMessage fetch now ⟨some "add", ts, some msg⟩ s = (s, .duplicateContent) := by
  have hmid : jsOrStr msg.id ("temp-" ++ toString now) = i := by simp [jsOrStr, hid, hne]
  have hcid : (mkNewComment now ts msg).id = i := by simp [mkNewComment, hmid]
  have hex : s.comments.any (fun c => c.id = (mkNewComment now ts msg).id) = false := by
    rw [List.any_eq_false]
    intro c hc
    simp [hcid, hnotin c hc]
  have hcontent : s.comments.any (fun c =>
      c.message = (mkNewComment now ts msg).message ∧
        c.author_name = (mkNewComment now ts msg).author_name ∧
        (c.created_at - (mkNewComment now ts msg).created_at).natAbs < 10000) = true := by
    rw [List.any_eq_true]
    obtain ⟨c, hc, hprop⟩ := hmatch
    exact ⟨c, hc, by simpa using hprop⟩
  simp [handleNewMessage, hmid, hnotproc, hex, hcontent]
  exact hmatch

/-- Witness for C6 (amended): the concrete server-id candidate from the
counterexample instantiates the general content-rejection theorem. -/
theorem content_check_hits_server_ids_check :
    handleNewMessage (.err "net") 0 ⟨some "add", some 5000, some rawMsgB⟩
        (deliver (.err "net") 0 addEvtA freshComp) =
      ((deliver (.err "net") 0 addEvtA freshComp), .duplicateContent) :=
  content_check_hits_server_ids (.err "net") 0 (some 5000) rawMsgB "m2"
    (deliver (.err "net") 0 addEvtA freshComp) rfl (by decide) (by decide)
    (by decide)
    ⟨mkNewComment 0 (some 0) rawMsgA, by decide, by decide, by decide, by decide⟩

/-- Claim C7 counterexample: with a bulk load in flight (a fetch was
issued from the fresh state and has not resolved), a second call to
`loadInitialComments` is NOT a no-op — it issues another fetch and
changes the visible list. -/
theorem load_guard_missing_cex :
    (loadStart freshComp).2 = true ∧
    (loadInitialComments (.ok [msgT1]) (loadStart freshComp).1).2 = true ∧
    (loadInitialComments (.ok [msgT1]) (loadStart freshComp).1).1.comments ≠
      (loadStart freshComp).1.comments := by decide

/-- Claim C7 (corrected): `loadInitialComments` is a no-op exactly when
the view is LOADED (`hasLoadedInitial = true`); there is no in-flight
(LOADING) guard — whenever `hasLoadedInitial` is false, including
while a previous fetch is still outstanding, the call issues a
fetch. -/
theorem load_guard_amended :
    (∀ (fetch : FetchResult) (s : CompState), s.hasLoadedInitial = true →
      loadInitialComments fetch s = (s, false)) ∧
    (∀ (fetch : FetchResult) (s : CompState), s.hasLoadedInitial = false →
      (loadInitialComments fetch s).2 = true) := by
  constructor
  · intro fetch s h
    simp [loadInitialComments, loadStart, h]
  · intro fetch s h
    simp [loadInitialComments, loadStart, h]

/-- Witness for C7 (amended): a loaded concrete state is left untouched
with no fetch; the fresh state triggers a fetch. -/
theorem load_guard_amended_check :
    loadInitialComments (.ok [msgT1]) (loadResolve (.ok []) freshComp) =
      (loadResolve (.ok []) freshComp, false) ∧
    (loadInitialComments (.ok [msgT1]) freshComp).2 = true :=
  ⟨load_guard_amended.1 (.ok [msgT1]) (loadResolve (.ok []) freshComp) (by decide),
   load_guard_amended.2 (.ok [msgT1]) freshComp (by decide)⟩

/-- Claim C8 counterexample: after `forceReload` clears the admitted-id
store (while leaving the visible list in place), re-delivering the
still-listed entity is NOT admitted — it is rejected as a duplicate by
the visible-list id check (`duplicateInList`) and the state is
unchanged, contradicting the claim that the cleared store lets it be
admitted again. -/
theorem force_reload_readmission_cex :
    loadedState.processedIds = {"srv-1"} ∧
    (deliver (.err "net") 50 reloadEvt loadedState).processedIds = ∅ ∧
    (deliver (.err "net") 50 reloadEvt loadedState).comments = [listedMsg] ∧
    handleNewMessage (.err "net") 60 ⟨some "add", some 0, some rawReadd⟩
        (deliver (.err "net") 50 reloadEvt loadedState) =
      ((deliver (.err "net") 50 reloadEvt loadedState), .duplicateInList) := by decide

/-- Claim C8 (corrected): a `forceReload` event on a loaded view clears
the admitted-id store and keeps the visible list; a re-delivered add
event for an entity still physically present in the list then passes
the cleared identity-store check but is rejected by the in-list id
check (`duplicateInList`, not `duplicateId`), leaving the state
unchanged — clearing the store alone does not enable re-admission
while the entity remains listed. -/
theorem force_reload_readmission_amended (fetch : FetchResult) (now1 now2 : Int)
    (ts : Option Int) (msg : RawMessage) (i : String) (s : CompState)
    (hload : s.hasLoadedInitial = true)
    (hid : msg.id = some i) (hne : i ≠ "")
    (hin : ∃ c ∈ s.comments, c.id = i) :
    (deliver fetch now1 ⟨some "forceReload", none, none⟩ s).comments = s.comments ∧
    (deliver fetch now1 ⟨some "forceReload", none, none⟩ s).processedIds = ∅ ∧
    handleNewMessage fetch now2 ⟨some "add", ts, some msg⟩
        (deliver fetch now1 ⟨some "forceReload", none, none⟩ s) =
      (deliver fetch now1 ⟨some "forceReload", none, none⟩ s, .duplicateInList) := by
  have hmid : jsOrStr msg.id ("temp-" ++ toString now2) = i := by simp [jsOrStr, hid, hne]
  have hcid : (mkNewComment now2 ts msg).id = i := by simp [mkNewComment, hmid]
  have hs1 : deliver fetch now1 ⟨some "forceReload", none, none⟩ s =
      { s with hasLoadedInitial := false, processedIds := ∅ } := by
    simp [deliver, handleNewMessage, hload]
  rw [hs1]
  refine ⟨rfl, rfl, ?_⟩
  have hex : s.comments.any (fun c => c.id = (mkNewComment now2 ts msg).id) = true := by
    rw [List.any_eq_true]
    obtain ⟨c, hc, hprop⟩ := hin
    exact ⟨c, hc, by simp [hcid, hprop]⟩
  simp [handleNewMessage, hmid, hex]

/-- Witness for C8 (amended): the concrete loaded state from the
counterexample instantiates the general theorem. -/
theorem force_reload_readmission_amended_check :
    (deliver (.err "net") 50 reloadEvt loadedState).comments = loadedState.comments ∧
    (deliver (.err "net") 50 reloadEvt loadedState).processedIds = ∅ ∧
    handleNewMessage (.err "net") 60 ⟨some "add", some 0, some rawReadd⟩
        (deliver (.err "net") 50 reloadEvt loadedState) =
      ((deliver (.err "net") 50 reloadEvt loadedState), .duplicateInList) :=
  force_reload_readmission_amended (.err "net") 50 60 (some 0) rawReadd "srv-1"
    loadedState rfl rfl (by decide) ⟨listedMsg, by decide, by decide⟩

/-- Claim C9 (confirmed): a raw notification lacking both its entity
payload and its action field, delivered through the gate to the
component handler at any time and against any component state,
produces no admitted entity and leaves the component state unchanged
(the only outcome is `ignored`); the embedded pipeline is a total
function, so no exception reaches the caller. -/
theorem malformed_input_safety (fetch : FetchResult) (now : Int) (t : Nat)
    (cs : CompState) :
    pipeline fetch now [(t, ⟨none, none, none⟩)] cs = (cs, [.ignored]) := by
  have hk : eventKey ⟨none, none, none⟩ ≠ "" := eventKey_ne_empty _
  simp only [pipeline, gateRun, List.foldl_cons, List.foldl_nil, gateStep,
    gateArrive_init hk, List.nil_append, gateFlush_pending, List.append_nil]
  simp [compStep, handleNewMessage]

/-- Claim C10 (confirmed): in a burst of raw notifications with
pairwise-distinct composite keys in which each arrival lands before
the 50 ms debounce timer of the previous one fires, every earlier
pending forward is cancelled and only the last notification is
forwarded to the deduplication/merge pipeline. -/
theorem rapid_burst_forwards_only_last (t0 : Nat) (d0 : EventData)
    (rest : List (Nat × EventData))
    (hchain : List.Chain' (fun x y : Nat × EventData => x.1 ≤ y.1 ∧ y.1 < x.1 + 50)
      ((t0, d0) :: rest))
    (hdist : ((t0, d0) :: rest).Pairwise (fun x y => eventKey x.2 ≠ eventKey y.2)) :
    (gateRun ((t0, d0) :: rest)).2 = [(rest.getLastD (t0, d0)).2] := by
  have hk := eventKey_ne_empty d0
  simp only [gateRun, List.foldl_cons, gateStep, gateArrive_init hk, List.nil_append,
    List.append_nil]
  rw [burst_fold rest t0 d0 [] hchain]
  simp [gateFlush_pending]

/-- Witness for C10: a concrete three-event burst with distinct keys at
0, 10 and 20 ms forwards only the last event. -/
theorem rapid_burst_check :
    (gateRun [(0, wEvt1), (10, wEvt2), (20, wEvt3)]).2 = [wEvt3] :=
  rapid_burst_forwards_only_last 0 wEvt1 [(10, wEvt2), (20, wEvt3)]
    (List.chain'_cons.mpr ⟨⟨by omega, by omega⟩,
      List.chain'_cons.mpr ⟨⟨by omega, by omega⟩, List.chain'_singleton _⟩⟩)
    (by decide)
